import Mathlib

/-!
Shallow embedding of `src/pomice/player.py` (the pomice `Player` class).

Outbound node traffic (`await self._node.send(...)`) is modelled as a list of
`Msg` values returned by each operation, and Python exceptions are modelled
with `Except PyError`.  Python exceptions do not roll back the attribute
assignments made before the raise, so every fallible operation returns the
(possibly updated) player state alongside the outcome:
`List Msg × Player × Except PyError ρ`.
Millisecond quantities (positions, `time.time() * 1000`) are modelled as
`Int` and track lengths as `Nat`; methods that read the clock take the
current value of `time.time() * 1000` as an explicit argument `now`.
-/

namespace Pomice

/-- A string-valued Python dict, enough for the gateway payloads the player
reads (it only ever looks up `"session_id"` and `"channel_id"` in them). -/
structure PyDict where
  entries : List (String × String)
deriving DecidableEq, Repr

/-- `d.get(k)`; `none` models Python `None` for a missing key. -/
def PyDict.get (d : PyDict) (k : String) : Option String :=
  (d.entries.find? (fun e => e.1 = k)).map (fun e => e.2)

/-- The dict key `"session_id"` read by `on_voice_state_update`. -/
def kSessionId : String := "session_id"

/-- The dict key `"channel_id"` read by `on_voice_state_update`. -/
def kChannelId : String := "channel_id"

/-- `objects.Track` (the `objects` module lives outside this file); the
player reads `spotify`, `search_type`, `track_id` and `length` and assigns
`youtube_result`, so exactly those attributes are modelled.  `length` is the
track length in milliseconds. -/
inductive Track : Type where
  | mk : (track_id : String) → (length : Nat) → (spotify : Bool) →
      (search_type : String) → (youtube_result : Option Track) → Track

def Track.track_id : Track → String
  | .mk i _ _ _ _ => i

def Track.length : Track → Nat
  | .mk _ l _ _ _ => l

def Track.spotify : Track → Bool
  | .mk _ _ sp _ _ => sp

def Track.search_type : Track → String
  | .mk _ _ _ st _ => st

def Track.youtube_result : Track → Option Track
  | .mk _ _ _ _ yr => yr

/-- `track.youtube_result = yr` (the mutation done in `Player.play`). -/
def Track.set_youtube_result : Track → Track → Track
  | .mk i l sp st _, yr => .mk i l sp st (some yr)

/-- `filters.Filter` (the `filters` module lives outside this file): the
player only reads `filter.payload`, the keyword dict splatted into the
`"filters"` message. -/
structure Filter where
  payload : PyDict
deriving DecidableEq, Repr

/-- The `_voice_state` dict.  Inspecting every write to `_voice_state` in
`player.py` shows it only ever holds the keys `"sessionId"` and `"event"`,
so it is modelled as two optional entries.  The outer `Option` is key
presence; for `sessionId` the inner `Option String` is the stored value
(`data.get("session_id")`, which may itself be Python `None`). -/
structure VoiceStateDict where
  sessionId : Option (Option String)
  event : Option PyDict
deriving DecidableEq, Repr

/-- One outbound websocket message to the node, one constructor per
`op=` value sent by `player.py`, carrying the payload fields it sends. -/
inductive Msg : Type where
  | play (guildId : String) (track : String) (startTime : Int)
      (endTime : Nat) (noReplace : Bool)
  | seek (guildId : String) (position : Int)
  | pause (guildId : String) (pause : Bool)
  | volume (guildId : String) (volume : Int)
  | filters (guildId : String) (payload : PyDict)
  | stop (guildId : String)
  | destroy (guildId : String)
  | voiceUpdate (guildId : String) (voice_data : VoiceStateDict)

/-- The Python exceptions the player can raise. -/
inductive PyError : Type where
  | trackInvalidPosition (msg : String)
  | attributeError (msg : String)
  | indexError (msg : String)
deriving DecidableEq, Repr

/-- Message of the `TrackInvalidPosition` raised by `Player.seek`. -/
def seekErrMsg : String := "Seek position must be between 0 and the track length"

/-- Message of the `AttributeError` raised by assigning to the read-only
property `current` (a `property` with no setter). -/
def cantSetAttrMsg : String := "can't set attribute"

/-- Message of the `AttributeError` raised by `None.length` when
`Player.seek` reads `self.current.length` with no current track. -/
def noneLengthMsg : String := "'NoneType' object has no attribute 'length'"

/-- Message of the `IndexError` raised by `(...)[0]` on an empty result. -/
def indexErrMsg : String := "list index out of range"

/-- The mutable state of a `Player` instance, with the attribute names of
`Player.__init__`.  The chat client, the guild object and the node handle
are external collaborators; only the guild id (the player sends
`str(self.guild.id)`) and the channel (as an id string) are kept. -/
structure Player : Type where
  _guild_id : String
  channel : Option String
  _current : Option Track
  _filter : Option Filter
  _volume : Int
  _paused : Bool
  _is_connected : Bool
  _position : Int
  _last_position : Int
  _last_update : Int
  _voice_state : VoiceStateDict

/-- `Player.__init__`: the initial field values set in the constructor. -/
def Player.init (guild_id channel_id : String) : Player :=
  { _guild_id := guild_id
    channel := some channel_id
    _current := none
    _filter := none
    _volume := 100
    _paused := false
    _is_connected := false
    _position := 0
    _last_position := 0
    _last_update := 0
    _voice_state := ⟨none, none⟩ }

/-- Property `Player.current`. -/
def Player.current (s : Player) : Option Track := s._current

/-- Property `Player.is_playing`:
`self._is_connected and self.current is not None`. -/
def Player.is_playing (s : Player) : Bool :=
  s._is_connected && s.current.isSome

/-- Property `Player.is_paused`: `self._is_connected and self._paused`. -/
def Player.is_paused (s : Player) : Bool :=
  s._is_connected && s._paused

/-- Property `Player.filter`. -/
def Player.filter (s : Player) : Option Filter := s._filter

/-- Property `Player.volume`. -/
def Player.volume (s : Player) : Int := s._volume

/-- Property `Player.position`; `now` is the current `time.time() * 1000`. -/
def Player.position (s : Player) (now : Int) : Int :=
  if !s.is_playing || s.current.isNone then 0
  else
    match s.current with
    | none => 0
    | some t =>
      if s.is_paused then min s._last_position (t.length : Int)
      else
        let difference := now - s._last_update
        let pos := s._last_position + difference
        if pos > (t.length : Int) then 0
        else min pos (t.length : Int)

/-- `Player._update_state` for a payload whose `"state"` dict carries the
connected flag `c` and the position `p` (the shapes sent by the node);
`now` is `time.time() * 1000` at the call. -/
def Player._update_state (s : Player) (c : Bool) (p : Int) (now : Int) : Player :=
  { s with _last_update := now, _is_connected := c, _last_position := p }

/-- `Player._dispatch_voice_update`: returns without sending unless
`self._voice_state.keys()` is exactly `{"sessionId", "event"}`; otherwise
sends one `voiceUpdate` message splatting `voice_data`. -/
def Player._dispatch_voice_update (s : Player) (voice_data : VoiceStateDict) :
    List Msg :=
  if s._voice_state.sessionId.isSome && s._voice_state.event.isSome then
    [Msg.voiceUpdate s._guild_id voice_data]
  else []

/-- `Player.on_voice_server_update`: buffers the event payload under the
`"event"` key, then dispatches the buffered voice state. -/
def Player.on_voice_server_update (s : Player) (data : PyDict) :
    Player × List Msg :=
  let s1 := { s with _voice_state := { s._voice_state with event := some data } }
  (s1, s1._dispatch_voice_update s1._voice_state)

/-- `Player.on_voice_state_update`: buffers `data.get("session_id")` under
the `"sessionId"` key; on a falsy `channel_id` it clears the channel and the
buffered voice state and returns, otherwise it records the channel and
dispatches `{**self._voice_state, "event": data}`.  (`int(channel_id)` and
`guild.get_channel` are abstracted to keeping the id string.) -/
def Player.on_voice_state_update (s : Player) (data : PyDict) :
    Player × List Msg :=
  let s1 := { s with
    _voice_state := { s._voice_state with sessionId := some (data.get kSessionId) } }
  match data.get kChannelId with
  | none => ({ s1 with channel := none, _voice_state := ⟨none, none⟩ }, [])
  | some cid =>
    if cid = "" then ({ s1 with channel := none, _voice_state := ⟨none, none⟩ }, [])
    else
      let s2 := { s1 with channel := some cid }
      (s2, s2._dispatch_voice_update ⟨s2._voice_state.sessionId, some data⟩)

/-- `Player.stop`.  Its first statement is `self.current = None`, but
`current` is a read-only `property` (it has no setter), so the assignment
raises `AttributeError` and the `"stop"` message on the next line is never
sent; no attribute is modified. -/
def Player.stop (s : Player) : List Msg × Player × Except PyError Unit :=
  ([], s, .error (.attributeError cantSetAttrMsg))

/-- `Player.connect`: registers the player in the node's player map and sets
a fresh plain attribute `is_connected` (note: not `_is_connected`, and the
class defines no `is_connected` property), neither of which is a modelled
field, so the tracked state is unchanged. -/
def Player.connect (s : Player) : Player := s

/-- `Player.disconnect`: `await self.stop()` raises, so nothing after it
runs; the dead success branch mirrors the remaining statements. -/
def Player.disconnect (s : Player) : List Msg × Player × Except PyError Unit :=
  match s.stop with
  | (ms, s1, .error e) => (ms, s1, .error e)
  | (ms, s1, .ok _) =>
    (ms, { s1 with channel := none, _is_connected := false }, .ok ())

/-- `Player.destroy`: `await self.disconnect()` raises, so the `"destroy"`
message is never reached; the dead success branch mirrors it. -/
def Player.destroy (s : Player) : List Msg × Player × Except PyError Unit :=
  match s.disconnect with
  | (ms, s1, .error e) => (ms, s1, .error e)
  | (ms, s1, .ok _) => (ms ++ [Msg.destroy s1._guild_id], s1, .ok ())

/-- `Player.play`.  For a Spotify track the node is asked to resolve the
search query first; `spotify_lookup` models the track list that
`await self._node.get_tracks(f"{track.search_type}")` returns, and `[0]` on
an empty list raises `IndexError`.  The resolved track is stored on
`track.youtube_result` before the message is sent; then `self._current =
track` and `self._current` is returned. -/
def Player.play (s : Player) (track : Track) (start_position : Int)
    (spotify_lookup : List Track) : List Msg × Player × Except PyError Track :=
  if track.spotify then
    match spotify_lookup with
    | [] => ([], s, .error (.indexError indexErrMsg))
    | st :: _ =>
      let track1 := track.set_youtube_result st
      ([Msg.play s._guild_id st.track_id start_position st.length false],
        { s with _current := some track1 }, .ok track1)
  else
    ([Msg.play s._guild_id track.track_id start_position track.length false],
      { s with _current := some track }, .ok track)

/-- `Player.seek`.  Python short-circuits `position < 0 or position >
self.current.length`, so a negative position raises `TrackInvalidPosition`
even with no current track, while a nonnegative position with no current
track raises `AttributeError` on `None.length`.  On success it sends the
`"seek"` message and returns `self._position`. -/
def Player.seek (s : Player) (position : Int) :
    List Msg × Player × Except PyError Int :=
  if position < 0 then
    ([], s, .error (.trackInvalidPosition seekErrMsg))
  else
    match s.current with
    | none => ([], s, .error (.attributeError noneLengthMsg))
    | some t =>
      if position > (t.length : Int) then
        ([], s, .error (.trackInvalidPosition seekErrMsg))
      else
        ([Msg.seek s._guild_id position], s, .ok s._position)

/-- `Player.set_pause`: sends the `"pause"` message, records the flag and
returns `self._paused`. -/
def Player.set_pause (s : Player) (pause : Bool) : List Msg × Player × Bool :=
  let s1 := { s with _paused := pause }
  ([Msg.pause s._guild_id pause], s1, s1._paused)

/-- `Player.set_volume`: sends the `"volume"` message, records the volume
and returns `self._volume`. -/
def Player.set_volume (s : Player) (volume : Int) : List Msg × Player × Int :=
  let s1 := { s with _volume := volume }
  ([Msg.volume s._guild_id volume], s1, s1._volume)

/-- `Player.set_filter`: sends the `"filters"` message splatting
`filter.payload`, then runs `await self.seek(self.position)`; only if that
does not raise are `self._filter = filter` and the return reached. -/
def Player.set_filter (s : Player) (filter : Filter) (now : Int) :
    List Msg × Player × Except PyError Filter :=
  let m := Msg.filters s._guild_id filter.payload
  match s.seek (s.position now) with
  | (ms, s1, .error e) => (m :: ms, s1, .error e)
  | (ms, s1, .ok _) => (m :: ms, { s1 with _filter := some filter }, .ok filter)

/-- A player state is reachable when it arises from `Player.__init__` by any
sequence of the state-modifying operations of `player.py` (operations that
raise leave behind the state they had built up to the raise, which the
embedding returns alongside the error; `get_tracks` and `_dispatch_event`
touch no attribute and are omitted). -/
inductive Reachable : Player → Prop where
  | init (g ch : String) : Reachable (Player.init g ch)
  | update_state (s : Player) (c : Bool) (p now : Int) :
      Reachable s → Reachable (s._update_state c p now)
  | voice_server (s : Player) (d : PyDict) :
      Reachable s → Reachable (s.on_voice_server_update d).1
  | voice_state (s : Player) (d : PyDict) :
      Reachable s → Reachable (s.on_voice_state_update d).1
  | connect (s : Player) : Reachable s → Reachable s.connect
  | stop (s : Player) : Reachable s → Reachable s.stop.2.1
  | disconnect (s : Player) : Reachable s → Reachable s.disconnect.2.1
  | destroy (s : Player) : Reachable s → Reachable s.destroy.2.1
  | play (s : Player) (t : Track) (sp : Int) (lk : List Track) :
      Reachable s → Reachable (s.play t sp lk).2.1
  | seek (s : Player) (p : Int) : Reachable s → Reachable (s.seek p).2.1
  | set_pause (s : Player) (b : Bool) : Reachable s → Reachable (s.set_pause b).2.1
  | set_volume (s : Player) (v : Int) : Reachable s → Reachable (s.set_volume v).2.1
  | set_filter (s : Player) (f : Filter) (now : Int) :
      Reachable s → Reachable (s.set_filter f now).2.1

/-- A concrete non-Spotify track of length 100 ms. -/
def exTrack : Track := Track.mk ("trk123") 100 false ("ytsearch:some song") none

/-- A concrete gateway payload with a session id and a channel id. -/
def exDict : PyDict := ⟨[(("session_id"), ("abc")), (("channel_id"), ("555"))]⟩

/-- A concrete filter. -/
def exFilter : Filter := ⟨⟨[(("volume"), ("0.5"))]⟩⟩

/-- A freshly constructed player. -/
def exPlayer0 : Player := Player.init ("guild1") ("chan1")

/-- A fresh player that has been handed a current track. -/
def exPlayerT : Player := { exPlayer0 with _current := some exTrack }

/-- A connected, paused player 50 ms into `exTrack`, last updated at time 0. -/
def exPlayer9 : Player :=
  { exPlayer0 with
    _current := some exTrack
    _is_connected := true
    _paused := true
    _last_position := 50
    _last_update := 0 }

/-- The state reached from a fresh player by playing `exTrack`. -/
def exPlayed : Player := (exPlayer0.play exTrack 0 []).2.1

/-- `seek` never modifies the player state, in every branch. -/
theorem seek_state_unchanged (s : Player) (p : Int) : (s.seek p).2.1 = s := by
  unfold Player.seek
  by_cases h1 : p < 0
  · simp [h1]
  · simp only [h1, if_false]
    cases s.current with
    | none => rfl
    | some t => by_cases h2 : (t.length : Int) < p <;> simp [h2]

/-- With a nonnegative tracked last position and a last update not in the
future, `position` lies between 0 and the current track's length. -/
theorem position_range (s : Player) (now : Int)
    (hlp : 0 ≤ s._last_position) (hlu : s._last_update ≤ now) :
    0 ≤ s.position now ∧
      ∀ t, s.current = some t → s.position now ≤ (t.length : Int) := by
  unfold Player.position
  cases hc : s.current with
  | none => simp [hc]
  | some t =>
    simp only [hc, Option.isNone_some, Bool.or_false]
    by_cases hp : s.is_playing
    · by_cases hps : s.is_paused
      · simp only [hp, hps, Bool.not_true, Bool.false_eq_true, if_false, if_true]
        refine ⟨le_min hlp (Int.ofNat_nonneg t.length), fun t' ht' => ?_⟩
        cases ht'
        exact min_le_right _ _
      · rw [Bool.not_eq_true] at hps
        by_cases hbig : s._last_position + (now - s._last_update) > (t.length : Int)
        · simp only [hp, hps, hbig, Bool.not_true, Bool.false_eq_true, if_false,
            if_true]
          refine ⟨le_refl 0, fun t' ht' => ?_⟩
          cases ht'
          exact Int.ofNat_nonneg _
        · simp only [hp, hps, hbig, Bool.not_true, Bool.false_eq_true, if_false]
          refine ⟨le_min (by omega) (by omega), fun t' ht' => ?_⟩
          cases ht'
          exact min_le_right _ _
    · rw [Bool.not_eq_true] at hp
      simp [hp]

/-- C1: for every non-Spotify track `t` and start position `sp`, `play`
sends exactly one `"play"` message to the node, carrying the guild id, `t`'s
track id, start time `sp` and end time `t.length`; afterwards the `current`
property returns `t`, which is also the value `play` returns. -/
theorem C1_play_nonspotify (s : Player) (t : Track) (sp : Int) (lk : List Track)
    (h : t.spotify = false) :
    s.play t sp lk =
      ([Msg.play s._guild_id t.track_id sp t.length false],
        { s with _current := some t }, .ok t) ∧
    (s.play t sp lk).2.1.current = some t ∧
    (s.play t sp lk).2.2 = .ok t := by
  unfold Player.play
  simp [h, Player.current]

/-- Witness for C1 at a concrete fresh player and concrete track. -/
theorem C1_witness :
    exTrack.spotify = false ∧
    (exPlayer0.play exTrack 0 []).2.1.current = some exTrack ∧
    (exPlayer0.play exTrack 0 []).2.2 = .ok exTrack :=
  ⟨rfl, (C1_play_nonspotify exPlayer0 exTrack 0 [] rfl).2.1,
    (C1_play_nonspotify exPlayer0 exTrack 0 [] rfl).2.2⟩

/-- C2: with a current track, `seek` raises `TrackInvalidPosition` iff the
position is negative or exceeds the track's length; when it raises, no
message is sent and the state is unchanged; otherwise it sends one `"seek"`
message carrying the position and the guild id. -/
theorem C2_seek_validation (s : Player) (t : Track) (p : Int)
    (h : s.current = some t) :
    ((∃ m, (s.seek p).2.2 = .error (.trackInvalidPosition m)) ↔
      (p < 0 ∨ (t.length : Int) < p)) ∧
    ((p < 0 ∨ (t.length : Int) < p) →
      s.seek p = ([], s, .error (.trackInvalidPosition seekErrMsg))) ∧
    (¬(p < 0 ∨ (t.length : Int) < p) →
      s.seek p = ([Msg.seek s._guild_id p], s, .ok s._position)) := by
  unfold Player.seek
  rw [h]
  by_cases h1 : p < 0
  · simp [h1]
  · by_cases h2 : (t.length : Int) < p
    · simp [h1, h2]
    · simp [h1, h2]

/-- Witness for C2: seeking to 150 in a 100 ms track raises and sends
nothing, the state staying put. -/
theorem C2_witness :
    exPlayerT.current = some exTrack ∧
    exPlayerT.seek 150 = ([], exPlayerT, .error (.trackInvalidPosition seekErrMsg)) :=
  ⟨rfl, (C2_seek_validation exPlayerT exTrack 150 rfl).2.1 (Or.inr (by decide))⟩

/-- C3: `_update_state` sets `_is_connected` to the payload's connected
flag, `_last_position` to its position, refreshes `_last_update` to the
current time, and modifies no other field. -/
theorem C3_update_state_mirrors (s : Player) (c : Bool) (p now : Int) :
    (s._update_state c p now)._is_connected = c ∧
    (s._update_state c p now)._last_position = p ∧
    (s._update_state c p now)._last_update = now ∧
    (s._update_state c p now)._guild_id = s._guild_id ∧
    (s._update_state c p now).channel = s.channel ∧
    (s._update_state c p now)._current = s._current ∧
    (s._update_state c p now)._filter = s._filter ∧
    (s._update_state c p now)._volume = s._volume ∧
    (s._update_state c p now)._paused = s._paused ∧
    (s._update_state c p now)._position = s._position ∧
    (s._update_state c p now)._voice_state = s._voice_state :=
  ⟨rfl, rfl, rfl, rfl, rfl, rfl, rfl, rfl, rfl, rfl, rfl⟩

/-- C5 (code bug): `stop` is supposed to clear the current track and forward
a `"stop"` command, but its first statement assigns to the read-only
property `current`, so it raises `AttributeError`: nothing is sent to the
node and the current track is not cleared. -/
theorem C5_stop_raises (s : Player) :
    s.stop = ([], s, .error (.attributeError cantSetAttrMsg)) ∧
    s.stop.2.1.current = s.current ∧ s.stop.1 = [] :=
  ⟨rfl, rfl, rfl⟩

/-- C6: `set_pause b` sends one `"pause"` message carrying `b` and the guild
id, afterwards the tracked pause flag equals `b`, and `set_pause` returns
that tracked flag. -/
theorem C6_set_pause (s : Player) (b : Bool) :
    (s.set_pause b).1 = [Msg.pause s._guild_id b] ∧
    (s.set_pause b).2.1._paused = b ∧
    (s.set_pause b).2.2 = (s.set_pause b).2.1._paused :=
  ⟨rfl, rfl, rfl⟩

/-- C4: a `voiceUpdate` message (sent only by `_dispatch_voice_update`)
goes out only when the buffered `_voice_state` holds exactly the keys
`sessionId` and `event`; in particular an `on_voice_server_update` received
while no session id is buffered sends nothing. -/
theorem C4_voice_update_gating (s : Player) (vd : VoiceStateDict) (d : PyDict) :
    (s._dispatch_voice_update vd ≠ [] →
      s._voice_state.sessionId.isSome = true ∧
        s._voice_state.event.isSome = true) ∧
    ((s.on_voice_server_update d).2 ≠ [] →
      (s.on_voice_server_update d).1._voice_state.sessionId.isSome = true ∧
        (s.on_voice_server_update d).1._voice_state.event.isSome = true) ∧
    ((s.on_voice_state_update d).2 ≠ [] →
      (s.on_voice_state_update d).1._voice_state.sessionId.isSome = true ∧
        (s.on_voice_state_update d).1._voice_state.event.isSome = true) ∧
    (s._voice_state.sessionId = none → (s.on_voice_server_update d).2 = []) := by
  refine ⟨?_, ?_, ?_, ?_⟩
  · intro hne
    unfold Player._dispatch_voice_update at hne
    by_cases h : s._voice_state.sessionId.isSome && s._voice_state.event.isSome
    · exact Bool.and_eq_true _ _ |>.mp h
    · simp [h] at hne
  · intro hne
    unfold Player.on_voice_server_update Player._dispatch_voice_update at hne ⊢
    by_cases h : s._voice_state.sessionId.isSome
    · simp [h]
    · simp [h] at hne
  · intro hne
    unfold Player.on_voice_state_update Player._dispatch_voice_update at hne ⊢
    rcases hg : d.get kChannelId with _ | cid
    · simp [hg] at hne
    · by_cases hc : cid = ""
      · simp [hg, hc] at hne
      · by_cases he : s._voice_state.event.isSome
        · simp [hg, hc, he]
        · simp [hg, hc, he] at hne
  · intro hnone
    unfold Player.on_voice_server_update Player._dispatch_voice_update
    simp [hnone]

/-- Witness for C4: a fresh player (no buffered session id) that receives a
voice server update sends nothing to the node. -/
theorem C4_witness :
    exPlayer0._voice_state.sessionId = none ∧
    (exPlayer0.on_voice_server_update exDict).2 = [] :=
  ⟨rfl, (C4_voice_update_gating exPlayer0 ⟨none, none⟩ exDict).2.2.2 rfl⟩

/-- C7 fails as stated: on a player with no current track, `set_filter`
sends the `"filters"` message but the internal `seek(self.position)` then
raises `AttributeError` reading `self.current.length`, so the filter
property does not return the new filter afterwards. -/
theorem C7_counterexample :
    (exPlayer0.set_filter exFilter 0).1 =
      [Msg.filters exPlayer0._guild_id exFilter.payload] ∧
    (exPlayer0.set_filter exFilter 0).2.2 =
      .error (.attributeError noneLengthMsg) ∧
    (exPlayer0.set_filter exFilter 0).2.1.filter ≠ some exFilter := by
  refine ⟨rfl, rfl, ?_⟩
  decide

/-- C7 (amended): `set_filter f` always sends the `"filters"` message with
`f`'s payload and the guild id first; with no current track the internal
seek then raises `AttributeError` and the filter is left unchanged; with a
current track, a nonnegative tracked last position and a last update not in
the future, it additionally sends the internal `"seek"` and afterwards the
`filter` property returns `f`, which is also the value returned. -/
theorem C7_set_filter (s : Player) (f : Filter) (now : Int) :
    ((s.set_filter f now).1.head? = some (Msg.filters s._guild_id f.payload)) ∧
    (s.current = none →
      (s.set_filter f now).2.2 = .error (.attributeError noneLengthMsg) ∧
      (s.set_filter f now).2.1.filter = s.filter) ∧
    (∀ t, s.current = some t → 0 ≤ s._last_position → s._last_update ≤ now →
      (s.set_filter f now).1 =
        [Msg.filters s._guild_id f.payload,
          Msg.seek s._guild_id (s.position now)] ∧
      (s.set_filter f now).2.2 = .ok f ∧
      (s.set_filter f now).2.1.filter = some f) := by
  refine ⟨?_, ?_, ?_⟩
  · unfold Player.set_filter
    rcases hs : s.seek (s.position now) with ⟨ms, s1, e | v⟩ <;> simp [hs]
  · intro hnone
    have hpos : s.position now = 0 := by
      simp [Player.position, hnone]
    have hseek : s.seek 0 = ([], s, .error (.attributeError noneLengthMsg)) := by
      unfold Player.seek
      rw [hnone]
      simp
    unfold Player.set_filter
    rw [hpos, hseek]
    simp [Player.filter]
  · intro t ht hlp hlu
    obtain ⟨h0, hle⟩ := position_range s now hlp hlu
    have hle2 : s.position now ≤ (t.length : Int) := hle t ht
    have hseek : s.seek (s.position now) =
        ([Msg.seek s._guild_id (s.position now)], s, .ok s._position) := by
      unfold Player.seek
      simp [ht, not_lt.mpr h0, not_lt.mpr hle2]
    unfold Player.set_filter
    rw [hseek]
    simp [Player.filter]

/-- Witness for C7 (amended) on a fresh player holding a 100 ms track. -/
theorem C7_witness :
    (exPlayerT.set_filter exFilter 5).1 =
      [Msg.filters exPlayerT._guild_id exFilter.payload,
        Msg.seek exPlayerT._guild_id (exPlayerT.position 5)] ∧
    (exPlayerT.set_filter exFilter 5).2.2 = .ok exFilter ∧
    (exPlayerT.set_filter exFilter 5).2.1.filter = some exFilter :=
  (C7_set_filter exPlayerT exFilter 5).2.2 exTrack rfl (by decide) (by decide)

/-- C9 fails as stated: a connected, paused player whose time-extrapolated
position (50 + 1000000 ms) exceeds the 100 ms track length returns
`min(last_position, length) = 50` from the paused branch, not 0. -/
theorem C9_counterexample :
    0 ≤ exPlayer9._last_position ∧
    exPlayer9._last_update ≤ 1000000 ∧
    exPlayer9.is_playing = true ∧
    exPlayer9.current = some exTrack ∧
    (exTrack.length : Int) <
      exPlayer9._last_position + (1000000 - exPlayer9._last_update) ∧
    exPlayer9.position 1000000 = 50 ∧ (50 : Int) ≠ 0 := by
  refine ⟨by decide, by decide, rfl, rfl, by decide, by decide, by decide⟩

/-- C9 (amended): with a nonnegative tracked last position and a last
update not in the future, `position` returns a value between 0 and the
current track's length inclusive; it returns exactly 0 whenever no track is
playing and — when not paused — whenever the time-extrapolated position
exceeds the track's length; when playing and paused it instead returns
`min(last position, length)`. -/
theorem C9_position_behaviour (s : Player) (now : Int)
    (hlp : 0 ≤ s._last_position) (hlu : s._last_update ≤ now) :
    (0 ≤ s.position now ∧
      ∀ t, s.current = some t → s.position now ≤ (t.length : Int)) ∧
    (s.is_playing = false → s.position now = 0) ∧
    (∀ t, s.current = some t → s.is_playing = true → s.is_paused = false →
      (t.length : Int) < s._last_position + (now - s._last_update) →
      s.position now = 0) ∧
    (∀ t, s.current = some t → s.is_playing = true → s.is_paused = true →
      s.position now = min s._last_position (t.length : Int)) := by
  refine ⟨position_range s now hlp hlu, ?_, ?_, ?_⟩
  · intro hnp
    unfold Player.position
    simp [hnp]
  · intro t ht hp hps hbig
    unfold Player.position
    simp [ht, hp, hps, hbig]
  · intro t ht hp hps
    unfold Player.position
    simp [ht, hp, hps]

/-- Witness for C9 (amended): the paused branch at the concrete paused
player. -/
theorem C9_witness :
    exPlayer9.position 1000000 =
      min exPlayer9._last_position (exTrack.length : Int) :=
  (C9_position_behaviour exPlayer9 1000000 (by decide) (by decide)).2.2.2
    exTrack rfl rfl rfl

/-- Every reachable state keeps `_position` at its initial value 0: no
operation of `player.py` ever assigns `self._position`. -/
theorem reachable_position_zero (s : Player) (h : Reachable s) :
    s._position = 0 := by
  induction h with
  | init g ch => rfl
  | update_state s c p now _ ih => exact ih
  | voice_server s d _ ih => exact ih
  | voice_state s d _ ih =>
    unfold Player.on_voice_state_update
    rcases hg : d.get kChannelId with _ | cid
    · exact ih
    · by_cases hc : cid = "" <;> simp [hg, hc] <;> exact ih
  | connect s _ ih => exact ih
  | stop s _ ih => exact ih
  | disconnect s _ ih => exact ih
  | destroy s _ ih => exact ih
  | play s t sp lk _ ih =>
    unfold Player.play
    by_cases hsp : t.spotify = true
    · simp only [hsp, if_true]
      cases lk with
      | nil => exact ih
      | cons st rest => exact ih
    · rw [Bool.not_eq_true] at hsp
      simp only [hsp, Bool.false_eq_true, if_false]
      exact ih
  | seek s p _ ih =>
    rw [seek_state_unchanged s p]
    exact ih
  | set_pause s b _ ih => exact ih
  | set_volume s v _ ih => exact ih
  | set_filter s f now _ ih =>
    have hs1 := seek_state_unchanged s (s.position now)
    unfold Player.set_filter
    rcases hs : s.seek (s.position now) with ⟨ms, s1, e | v⟩
    · rw [hs] at hs1
      have h2 : s1 = s := hs1
      show s1._position = 0
      rw [h2]
      exact ih
    · rw [hs] at hs1
      have h2 : s1 = s := hs1
      show s1._position = 0
      rw [h2]
      exact ih

/-- C8: every successful `seek` returns 0 whatever the position argument:
the `_position` field it returns is initialized to 0 by the constructor and
never assigned by any operation, so it is 0 in every reachable state. -/
theorem C8_seek_returns_zero (s : Player) (p r : Int)
    (h : Reachable s) (hok : (s.seek p).2.2 = .ok r) : r = 0 := by
  have hz : s._position = 0 := reachable_position_zero s h
  unfold Player.seek at hok
  by_cases h1 : p < 0
  · simp [h1] at hok
  · rcases hc : s.current with _ | t
    · rw [hc] at hok
      simp [h1] at hok
    · rw [hc] at hok
      by_cases h2 : (t.length : Int) < p
      · simp [h1, h2] at hok
      · simp [h1, h2] at hok
        omega

/-- Witness for C8: after playing a 100 ms track on a fresh player, a
successful seek to 50 returns 0. -/
theorem C8_witness :
    (exPlayed.seek 50).2.2 = .ok 0 ∧ (0 : Int) = 0 := by
  have hr : Reachable exPlayed :=
    Reachable.play exPlayer0 exTrack 0 [] (Reachable.init ("guild1") ("chan1"))
  have hok : (exPlayed.seek 50).2.2 = .ok 0 := rfl
  exact ⟨hok, C8_seek_returns_zero exPlayed 50 0 hr hok⟩

/-- C10: when the tracked connected flag is false, `is_playing` and
`is_paused` both return false, whatever the current track and pause flag. -/
theorem C10_disconnected_not_playing (s : Player) (h : s._is_connected = false) :
    s.is_playing = false ∧ s.is_paused = false := by
  simp [Player.is_playing, Player.is_paused, h]

/-- Witness for C10 on a disconnected player holding a track while paused. -/
theorem C10_witness :
    ({ exPlayerT with _paused := true })._is_connected = false ∧
    ({ exPlayerT with _paused := true }).is_playing = false ∧
    ({ exPlayerT with _paused := true }).is_paused = false :=
  ⟨rfl, (C10_disconnected_not_playing _ rfl).1,
    (C10_disconnected_not_playing _ rfl).2⟩

end Pomice
